import Mathlib

/-!
Shallow embedding of the poker-planning backend's session/voting core.

Each definition mirrors one TypeScript class or method of the repository:

* `Scale`, `VoteValue`  — `domain/value-objects/Scale.ts`, `VoteValue.ts`
* `Participant`, `Vote`, `VotingRound`, `Session` — `domain/entities/*`
* the application use cases — `application/use-cases/*.ts`
* `RedisSessionRepository.serializeSession` / `deserializeSession`
* `SocketManager.serializeSession` / `handleSessionJoin` (WebSocket gateway)

JavaScript `Map`s are modelled as insertion-ordered association lists
(`Map.set` replaces in place when the key exists, appends otherwise);
`Date` timestamps are modelled as `Nat` values threaded explicitly
(`now` parameters stand for `new Date()` / `Date.now()`); a method that
can `throw` is modelled as returning `Except String _` carrying the
thrown message.
-/

/-- Insertion-ordered association-list update, mirroring JavaScript
`Map.prototype.set`: an existing key keeps its position and gets the new
value, a fresh key is appended at the end. -/
def assocSet {α : Type} (m : List (String × α)) (k : String) (v : α) :
    List (String × α) :=
  if m.any (fun p => p.1 = k) then
    m.map (fun p => if p.1 = k then (k, v) else p)
  else
    m ++ [(k, v)]

/-- Mirrors JavaScript `Map.prototype.delete`. -/
def assocDelete {α : Type} (m : List (String × α)) (k : String) :
    List (String × α) :=
  m.filter (fun p => ¬ p.1 = k)

/-- Mirrors JavaScript `Map.prototype.get` (`undefined` becomes `none`). -/
def assocGet {α : Type} (m : List (String × α)) (k : String) : Option α :=
  (m.find? (fun p => p.1 = k)).map (fun p => p.2)

/-- Mirrors JavaScript `Map.prototype.has`. -/
def assocHas {α : Type} (m : List (String × α)) (k : String) : Bool :=
  m.any (fun p => p.1 = k)

/-- Model of JavaScript `String.prototype.trim`: strip leading and
trailing whitespace (structural implementation so proofs can evaluate
it). -/
def jsTrim (s : String) : String :=
  ⟨((s.data.dropWhile Char.isWhitespace).reverse.dropWhile Char.isWhitespace).reverse⟩

/-- Model of JavaScript `Number(value)` restricted to the label strings
this system uses: an unsigned decimal digit string parses to its value,
anything else (including `ABSTAIN`, `COFFEE`, `?`, `XS`, ...) is `NaN`,
modelled as `none`. -/
def jsNumberNat (s : String) : Option Nat :=
  if s.data ≠ [] ∧ s.data.all Char.isDigit then
    some (s.data.foldl (fun acc c => 10 * acc + (c.toNat - 48)) 0)
  else none

/-- Scale value object (`Scale.ts`): a name and an ordered list of label
strings.  The private constructor's validation lives in `Scale.make`. -/
structure Scale where
  name : String
  values : List String
deriving DecidableEq, Repr

/-- Validating constructor of `Scale` (the private TS constructor reached
through `Scale.custom`): non-empty trimmed name, at least two values, all
values non-empty, no duplicates.  The name is trimmed, the values are
copied as given. -/
def Scale.make (name : String) (values : List String) : Except String Scale :=
  if jsTrim name = "" then .error "Scale name cannot be empty"
  else if values.length < 2 then .error "Scale must have at least 2 values"
  else if values.any (fun v => jsTrim v = "") then .error "Scale values cannot be empty"
  else if values.dedup.length ≠ values.length then .error "Scale values must be unique"
  else .ok ⟨jsTrim name, values⟩

/-- Factory `Scale.fibonacci()`. -/
def Scale.fibonacci : Scale :=
  ⟨"fibonacci", ["1", "2", "3", "5", "8", "13", "21", "34", "55", "89"]⟩

/-- Factory `Scale.tshirt()`. -/
def Scale.tshirt : Scale :=
  ⟨"tshirt", ["XS", "S", "M", "L", "XL", "XXL"]⟩

/-- Factory `Scale.powerOfTwo()`. -/
def Scale.powerOfTwo : Scale :=
  ⟨"power-of-2", ["1", "2", "4", "8", "16", "32", "64"]⟩

/-- Factory `Scale.custom(name, values)`: just the validating constructor. -/
def Scale.custom (name : String) (values : List String) : Except String Scale :=
  Scale.make name values

/-- Method `Scale.isValidValue(value)`: membership in the value list. -/
def Scale.isValidValue (s : Scale) (value : String) : Bool :=
  s.values.contains value

/-- Method `Scale.getType()`: maps the three known scale names to type
tags, everything else to `"custom"`. -/
def Scale.getType (s : Scale) : String :=
  if s.name = "fibonacci" then "fibonacci"
  else if s.name = "tshirt" then "tshirt"
  else if s.name = "power-of-2" then "powerOfTwo"
  else "custom"

/-- Sentinel test `VoteValue.isSpecialValue` (`ABSTAIN`, `COFFEE`, `?`). -/
def isSpecialValue (value : String) : Bool :=
  value = "ABSTAIN" || value = "COFFEE" || value = "?"

/-- VoteValue value object (`VoteValue.ts`): a raw label bound to a scale. -/
structure VoteValue where
  value : String
  scale : Scale
deriving DecidableEq, Repr

/-- Validating constructor of `VoteValue`: rejects blank values and
non-sentinel values outside the scale; sentinels bypass the scale check.
The stored value is trimmed. -/
def VoteValue.make (value : String) (scale : Scale) : Except String VoteValue :=
  if jsTrim value = "" then .error "Vote value cannot be empty"
  else if ¬ isSpecialValue value ∧ ¬ scale.isValidValue value then
    .error "Vote value is not valid for scale"
  else .ok ⟨jsTrim value, scale⟩

/-- Method `VoteValue.isRegularVote()`. -/
def VoteValue.isRegularVote (v : VoteValue) : Bool :=
  ¬ isSpecialValue v.value

/-- Participant role (`Participant.ts`): `'participant' | 'spectator'`. -/
inductive ParticipantRole where
  | participant
  | spectator
deriving DecidableEq, Repr

/-- Participant entity (`Participant.ts`). -/
structure Participant where
  id : String
  name : String
  role : ParticipantRole
  connected : Bool
deriving DecidableEq, Repr

/-- Validating constructor of `Participant`: non-blank id and name (both
trimmed), `connected` initialised to `true`. -/
def Participant.make (id name : String) (role : ParticipantRole) :
    Except String Participant :=
  if jsTrim id = "" then .error "Participant ID cannot be empty"
  else if jsTrim name = "" then .error "Participant name cannot be empty"
  else .ok ⟨jsTrim id, jsTrim name, role, true⟩

/-- Method `Participant.canVote()`: only the `participant` role votes. -/
def Participant.canVote (p : Participant) : Bool :=
  p.role = ParticipantRole.participant

/-- Method `Participant.disconnect()`. -/
def Participant.disconnect (p : Participant) : Participant :=
  { p with connected := false }

/-- Method `Participant.connect()`. -/
def Participant.connect (p : Participant) : Participant :=
  { p with connected := true }

/-- Vote entity (`Vote.ts`): participant id, vote value, timestamp and the
`revealed` flag. -/
structure Vote where
  participantId : String
  value : VoteValue
  timestamp : Nat
  revealed : Bool
deriving DecidableEq, Repr

/-- Validating constructor of `Vote`: non-blank participant id (trimmed);
`revealed` starts `false`, the timestamp is the construction time. -/
def Vote.make (participantId : String) (value : VoteValue) (now : Nat) :
    Except String Vote :=
  if jsTrim participantId = "" then .error "Participant ID cannot be empty"
  else .ok ⟨jsTrim participantId, value, now, false⟩

/-- Method `Vote.reveal()`. -/
def Vote.reveal (v : Vote) : Vote :=
  { v with revealed := true }

/-- Method `Vote.hide()`. -/
def Vote.hide (v : Vote) : Vote :=
  { v with revealed := false }

/-- Round status (`VotingRound.ts`): `'voting' | 'revealed' | 'finished'`. -/
inductive VotingStatus where
  | voting
  | revealed
  | finished
deriving DecidableEq, Repr

/-- VotingRound entity (`VotingRound.ts`): question, start time, status and
the participant-keyed vote map. -/
structure VotingRound where
  question : String
  startedAt : Nat
  status : VotingStatus
  votes : List (String × Vote)
deriving DecidableEq, Repr

/-- Validating constructor of `VotingRound`: non-blank question (trimmed),
status `voting`, empty vote map, `startedAt` = construction time. -/
def VotingRound.make (question : String) (now : Nat) :
    Except String VotingRound :=
  if jsTrim question = "" then .error "Question cannot be empty"
  else .ok ⟨jsTrim question, now, VotingStatus.voting, []⟩

/-- Method `VotingRound.isActive()`. -/
def VotingRound.isActive (r : VotingRound) : Bool :=
  r.status = VotingStatus.voting

/-- Method `VotingRound.areVotesRevealed()`. -/
def VotingRound.areVotesRevealed (r : VotingRound) : Bool :=
  r.status = VotingStatus.revealed || r.status = VotingStatus.finished

/-- Method `VotingRound.isFinished()`. -/
def VotingRound.isFinished (r : VotingRound) : Bool :=
  r.status = VotingStatus.finished

/-- Method `VotingRound.submitVote(participantId, voteValue)`: only valid
while the status is `voting`; builds a fresh `Vote` and `Map.set`s it under
the (untrimmed) participant id. -/
def VotingRound.submitVote (r : VotingRound) (participantId : String)
    (voteValue : VoteValue) (now : Nat) : Except String VotingRound :=
  if ¬ r.isActive then .error "Cannot submit vote when voting is not active"
  else
    (Vote.make participantId voteValue now).map
      (fun vote => { r with votes := assocSet r.votes participantId vote })

/-- Method `VotingRound.hasVoted(participantId)`. -/
def VotingRound.hasVoted (r : VotingRound) (participantId : String) : Bool :=
  assocHas r.votes participantId

/-- Method `VotingRound.getVote(participantId)`. -/
def VotingRound.getVote (r : VotingRound) (participantId : String) : Option Vote :=
  assocGet r.votes participantId

/-- Method `VotingRound.getVoteCount()`. -/
def VotingRound.getVoteCount (r : VotingRound) : Nat :=
  r.votes.length

/-- Method `VotingRound.reveal()`: only valid while the status is `voting`;
sets the status to `revealed` and marks every stored vote revealed. -/
def VotingRound.reveal (r : VotingRound) : Except String VotingRound :=
  if ¬ r.isActive then .error "Cannot reveal votes when voting is not active"
  else .ok { r with
    status := VotingStatus.revealed,
    votes := r.votes.map (fun p => (p.1, p.2.reveal)) }

/-- Method `VotingRound.finish()`, statement for statement: an already
finished round returns unchanged; otherwise the status is first mutated to
`finished`, and only then `areVotesRevealed()` is consulted to decide
whether to reveal the stored votes (mirroring the order of the two
statements in the TS method body). -/
def VotingRound.finish (r : VotingRound) : VotingRound :=
  if r.isFinished then r
  else
    let r1 := { r with status := VotingStatus.finished }
    if ¬ r1.areVotesRevealed then
      { r1 with votes := r1.votes.map (fun p => (p.1, p.2.reveal)) }
    else r1

/-- Method `VotingRound.removeVote(participantId)`: unconditional delete. -/
def VotingRound.removeVote (r : VotingRound) (participantId : String) :
    VotingRound :=
  { r with votes := assocDelete r.votes participantId }

/-- Validating constructor of `SessionId` (`SessionId.ts`): the trimmed
value must be non-empty and between 3 and 100 characters; the stored value
is the trimmed string. -/
def SessionId.make (value : String) : Except String String :=
  if jsTrim value = "" then .error "SessionId cannot be empty"
  else if (jsTrim value).length < 3 then .error "SessionId must be at least 3 characters long"
  else if (jsTrim value).length > 100 then .error "SessionId must be at most 100 characters long"
  else .ok (jsTrim value)

/-- Session aggregate root (`Session.ts`): id, name, scale, creator,
active flag, participant map, optional current round and the round
history (field `voteHistory` in the source). -/
structure Session where
  id : String
  name : String
  scale : Scale
  creatorId : String
  active : Bool
  participants : List (String × Participant)
  currentVote : Option VotingRound
  voteHistory : List VotingRound
  createdAt : Nat
deriving DecidableEq, Repr

/-- Validating constructor of `Session`: non-blank name and creator id
(both trimmed); starts active, with no participants, no current round and
empty history. -/
def Session.make (id name : String) (scale : Scale) (creatorId : String)
    (now : Nat) : Except String Session :=
  if jsTrim name = "" then .error "Session name cannot be empty"
  else if jsTrim creatorId = "" then .error "Creator ID cannot be empty"
  else .ok ⟨id, jsTrim name, scale, jsTrim creatorId, true, [], none, [], now⟩

/-- Method `Session.activate()`. -/
def Session.activate (s : Session) : Session :=
  { s with active := true }

/-- Method `Session.deactivate()`. -/
def Session.deactivate (s : Session) : Session :=
  { s with active := false }

/-- Method `Session.addParticipant(participant)`: `Map.set` keyed by the
participant's own id (a silent overwrite when the id is already present). -/
def Session.addParticipant (s : Session) (p : Participant) : Session :=
  { s with participants := assocSet s.participants p.id p }

/-- Method `Session.removeParticipant(participantId)`: deletes from the
participant map and, when a current round exists, from its votes. -/
def Session.removeParticipant (s : Session) (participantId : String) : Session :=
  { s with
    participants := assocDelete s.participants participantId,
    currentVote := s.currentVote.map (fun r => r.removeVote participantId) }

/-- Method `Session.findParticipant(participantId)`. -/
def Session.findParticipant (s : Session) (participantId : String) :
    Option Participant :=
  assocGet s.participants participantId

/-- Method `Session.getParticipants()`: values in insertion order. -/
def Session.getParticipants (s : Session) : List Participant :=
  s.participants.map (fun p => p.2)

/-- Method `Session.getVotingParticipants()`. -/
def Session.getVotingParticipants (s : Session) : List Participant :=
  s.getParticipants.filter (fun p => p.canVote)

/-- Method `Session.getParticipantCount()`. -/
def Session.getParticipantCount (s : Session) : Nat :=
  s.participants.length

/-- Method `Session.isVotingActive()`: a current round exists and its
status is `voting`. -/
def Session.isVotingActive (s : Session) : Bool :=
  match s.currentVote with
  | some r => r.isActive
  | none => false

/-- Method `Session.startVoting(question)`: rejected only when
`isVotingActive()` holds (current round in status `voting`); otherwise the
current round is replaced by a fresh `VotingRound`. -/
def Session.startVoting (s : Session) (question : String) (now : Nat) :
    Except String Session :=
  if s.isVotingActive then .error "Cannot start voting while another vote is active"
  else (VotingRound.make question now).map (fun r => { s with currentVote := some r })

/-- Method `Session.submitVote(participantId, voteValue)`: requires a
current round and a vote-capable participant, then delegates to the
round. -/
def Session.submitVote (s : Session) (participantId : String)
    (voteValue : VoteValue) (now : Nat) : Except String Session :=
  match s.currentVote with
  | none => .error "No active vote to submit to"
  | some r =>
    match s.findParticipant participantId with
    | none => .error "Participant not found or cannot vote"
    | some p =>
      if ¬ p.canVote then .error "Participant not found or cannot vote"
      else (r.submitVote participantId voteValue now).map
        (fun r1 => { s with currentVote := some r1 })

/-- Method `Session.revealVotes()`: requires a current round, delegates to
`VotingRound.reveal`. -/
def Session.revealVotes (s : Session) : Except String Session :=
  match s.currentVote with
  | none => .error "No active vote to reveal"
  | some r => r.reveal.map (fun r1 => { s with currentVote := some r1 })

/-- Method `Session.finishVoting()`: requires a current round, finishes
it, appends it to the history and clears the current round. -/
def Session.finishVoting (s : Session) : Except String Session :=
  match s.currentVote with
  | none => .error "No active vote to finish"
  | some r =>
    .ok { s with
      currentVote := none,
      voteHistory := s.voteHistory ++ [r.finish] }

/-- Method `Session.getVoteHistory()`. -/
def Session.getVoteHistory (s : Session) : List VotingRound :=
  s.voteHistory

/-- String form of a role, as it appears in serialized payloads and in
generated participant ids. -/
def ParticipantRole.toKey : ParticipantRole → String
  | ParticipantRole.participant => "participant"
  | ParticipantRole.spectator => "spectator"

/-- One row of the reveal result (`RevealVotes.ts`, interface VoteResult). -/
structure VoteResult where
  participantId : String
  participantName : String
  voteValue : String
deriving DecidableEq, Repr

/-- Statistics record (`RevealVotes.ts`, interface VotingStatistics).
JavaScript numbers are modelled as `Rat`; the `distribution` object is an
insertion-ordered association list. -/
structure VotingStatistics where
  totalVotes : Nat
  average : Rat
  median : Rat
  mode : List String
  distribution : List (String × Nat)
  minVote : String
  maxVote : String
  consensus : Bool
deriving DecidableEq, Repr

/-- Shared body of `RevealVotesUseCase.calculateStatistics` and the
textually identical private copy in `SocketManager`: numeric analysis over
the digit-string labels, frequency distribution and mode over all labels,
min/max over the numeric subset falling back to the first label, and
consensus iff at most one distinct label. -/
def calculateStatistics (votes : List VoteResult) : VotingStatistics :=
  if votes = [] then ⟨0, 0, 0, [], [], "", "", true⟩
  else
    let allVoteValues := votes.map (fun v => v.voteValue)
    let numericVotes : List Nat :=
      (allVoteValues.filter (fun v =>
        (jsNumberNat v).isSome ∧ v ≠ "ABSTAIN" ∧ v ≠ "COFFEE" ∧ v ≠ "?")).filterMap jsNumberNat
    let average : Rat :=
      if numericVotes.length > 0 then
        ((numericVotes.foldl (fun a b => a + b) 0 : Nat) : Rat) / (numericVotes.length : Rat)
      else 0
    let sortedVotes := numericVotes.mergeSort (fun a b => a ≤ b)
    let mid := sortedVotes.length / 2
    let median : Rat :=
      if numericVotes.length > 0 then
        if sortedVotes.length % 2 = 0 then
          (((sortedVotes.getD (mid - 1) 0 : Nat) : Rat) + ((sortedVotes.getD mid 0 : Nat) : Rat)) / 2
        else ((sortedVotes.getD mid 0 : Nat) : Rat)
      else 0
    let distribution : List (String × Nat) :=
      allVoteValues.foldl (fun d v => assocSet d v ((assocGet d v).getD 0 + 1)) []
    let maxFrequency := (distribution.map (fun p => p.2)).foldl max 0
    let mode := (distribution.filter (fun p => p.2 = maxFrequency)).map (fun p => p.1)
    let minVote :=
      if sortedVotes.length > 0 then toString (sortedVotes.getD 0 0)
      else (allVoteValues.headD "")
    let maxVote :=
      if sortedVotes.length > 0 then toString (sortedVotes.getD (sortedVotes.length - 1) 0)
      else (allVoteValues.headD "")
    let consensus := allVoteValues.dedup.length ≤ 1
    ⟨votes.length, average, median, mode, distribution, minVote, maxVote, consensus⟩

/-- Command of `SubmitVoteUseCase`. -/
structure SubmitVoteCommand where
  sessionId : String
  participantId : String
  voteValue : String
deriving DecidableEq, Repr

/-- Result of `SubmitVoteUseCase`. -/
structure SubmitVoteResult where
  success : Bool
  voteValue : String
  participantName : String
deriving DecidableEq, Repr

/-- Method `SubmitVoteUseCase.execute(command)` (`SubmitVote.ts`).  The
repository lookup is passed in as `found`; on success the returned session
is the one handed to `save`. -/
def SubmitVoteUseCase.execute (cmd : SubmitVoteCommand)
    (found : Option Session) (now : Nat) :
    Except String (Session × SubmitVoteResult) :=
  if jsTrim cmd.sessionId = "" then .error "Session ID cannot be empty"
  else if jsTrim cmd.participantId = "" then .error "Participant ID cannot be empty"
  else if jsTrim cmd.voteValue = "" then .error "Vote value cannot be empty"
  else
    (SessionId.make cmd.sessionId).bind (fun _ =>
      match found with
      | none => .error "Session not found"
      | some session =>
        if ¬ session.active then .error "Session is not active"
        else if ¬ session.isVotingActive then .error "No active voting round"
        else
          match session.findParticipant cmd.participantId with
          | none => .error "Participant not found or cannot vote"
          | some participant =>
            if ¬ participant.canVote then .error "Participant not found or cannot vote"
            else
              (VoteValue.make cmd.voteValue session.scale).bind (fun voteValue =>
                (session.submitVote cmd.participantId voteValue now).map
                  (fun saved => (saved, ⟨true, cmd.voteValue, participant.name⟩))))

/-- Command of `RevealVotesUseCase`. -/
structure RevealVotesCommand where
  sessionId : String
  initiatorId : String
deriving DecidableEq, Repr

/-- Result of `RevealVotesUseCase`. -/
structure RevealVotesResult where
  success : Bool
  question : String
  votes : List VoteResult
  statistics : VotingStatistics
deriving DecidableEq, Repr

/-- Vote-result collection loop of `RevealVotesUseCase.execute`: one row
per stored vote whose participant is still found in the session (rows of
absent participants are silently skipped). -/
def collectVoteResults (session : Session) (round : VotingRound) :
    List VoteResult :=
  round.votes.filterMap (fun p =>
    (session.findParticipant p.1).map
      (fun participant => ⟨p.1, participant.name, p.2.value.value⟩))

/-- Helper `RevealVotesUseCase.canRevealVotes`: the initiator must be a
found participant with the voter role. -/
def canRevealVotes (session : Session) (initiatorId : String) : Bool :=
  match session.findParticipant initiatorId with
  | none => false
  | some participant => participant.canVote

/-- Method `RevealVotesUseCase.execute(command)` (`RevealVotes.ts`):
validation, precondition checks (`already revealed`, `no active round`),
authorization, then `Session.revealVotes`, then result collection and
statistics over the revealed round. -/
def RevealVotesUseCase.execute (cmd : RevealVotesCommand)
    (found : Option Session) :
    Except String (Session × RevealVotesResult) :=
  if jsTrim cmd.sessionId = "" then .error "Session ID cannot be empty"
  else if jsTrim cmd.initiatorId = "" then .error "Initiator ID cannot be empty"
  else
    (SessionId.make cmd.sessionId).bind (fun _ =>
      match found with
      | none => .error "Session not found"
      | some session =>
        if ¬ session.active then .error "Session is not active"
        else
          match session.currentVote with
          | none => .error "No active voting round"
          | some currentVote =>
            if currentVote.status = VotingStatus.revealed then
              .error "Votes are already revealed"
            else if ¬ session.isVotingActive ∧ ¬ currentVote.status = VotingStatus.voting then
              .error "No active voting round"
            else if ¬ canRevealVotes session cmd.initiatorId then
              .error "Only participants or session creator can reveal votes"
            else
              (session.revealVotes).map (fun saved =>
                let revealedRound := (saved.currentVote).getD currentVote
                let votes := collectVoteResults saved revealedRound
                (saved, ⟨true, currentVote.question, votes, calculateStatistics votes⟩)))

/-- Command of `FinishVotingUseCase` (`part_001`). -/
structure FinishVotingCommand where
  sessionId : String
  initiatorId : String
deriving DecidableEq, Repr

/-- Helper `FinishVotingUseCase.canFinishVoting`: same rule as for
revealing. -/
def canFinishVoting (session : Session) (initiatorId : String) : Bool :=
  match session.findParticipant initiatorId with
  | none => false
  | some participant => participant.canVote

/-- Method `FinishVotingUseCase.execute(command)` (`part_001`): its
`validateCommand` only rejects falsy ids (so the empty string), then the
usual lookup/active/authorization checks before `Session.finishVoting`. -/
def FinishVotingUseCase.execute (cmd : FinishVotingCommand)
    (found : Option Session) : Except String Session :=
  if cmd.sessionId = "" then .error "Session ID is required"
  else if cmd.initiatorId = "" then .error "Initiator ID is required"
  else
    (SessionId.make cmd.sessionId).bind (fun _ =>
      match found with
      | none => .error "Session not found"
      | some session =>
        if ¬ session.active then .error "Session is not active"
        else if ¬ canFinishVoting session cmd.initiatorId then
          .error "Only participants or session creator can finish voting"
        else session.finishVoting)

/-- Command of `StartVotingUseCase`. -/
structure StartVotingCommand where
  sessionId : String
  question : String
  initiatorId : String
deriving DecidableEq, Repr

/-- Result of `StartVotingUseCase` (the generated round id is passed in as
`freshRoundId`, standing for the `Date.now()`/random id in the source). -/
structure StartVotingResult where
  votingRoundId : String
  question : String
  votingParticipants : List (String × String)
deriving DecidableEq, Repr

/-- Helper `StartVotingUseCase.canInitiateVoting`. -/
def canInitiateVoting (session : Session) (initiatorId : String) : Bool :=
  match session.findParticipant initiatorId with
  | none => false
  | some participant => participant.canVote

/-- Method `StartVotingUseCase.execute(command)` (`StartVoting.ts`). -/
def StartVotingUseCase.execute (cmd : StartVotingCommand)
    (found : Option Session) (now : Nat) (freshRoundId : String) :
    Except String (Session × StartVotingResult) :=
  if jsTrim cmd.sessionId = "" then .error "Session ID cannot be empty"
  else if jsTrim cmd.question = "" then .error "Question cannot be empty"
  else if jsTrim cmd.initiatorId = "" then .error "Initiator ID cannot be empty"
  else
    (SessionId.make cmd.sessionId).bind (fun _ =>
      match found with
      | none => .error "Session not found"
      | some session =>
        if ¬ session.active then .error "Session is not active"
        else if session.isVotingActive then .error "Voting is already active"
        else if ¬ canInitiateVoting session cmd.initiatorId then
          .error "Only participants or session creator can start voting"
        else
          (session.startVoting cmd.question now).map (fun saved =>
            (saved,
              ⟨freshRoundId, jsTrim cmd.question,
               saved.getVotingParticipants.map (fun p => (p.id, p.name))⟩)))

/-- Command of `JoinSessionUseCase`. -/
structure JoinSessionCommand where
  sessionId : String
  participantName : String
  role : ParticipantRole
deriving DecidableEq, Repr

/-- Summary of the current round returned by `JoinSessionUseCase`. -/
structure CurrentVoteInfo where
  question : String
  status : VotingStatus
  startedAt : Nat
deriving DecidableEq, Repr

/-- Result of `JoinSessionUseCase`. -/
structure JoinSessionResult where
  participantId : String
  sessionName : String
  scale : Scale
  currentVote : Option CurrentVoteInfo
deriving DecidableEq, Repr

/-- Method `JoinSessionUseCase.execute(command)` (`JoinSession.ts`): the
generated participant id is `role + "-" + uuid`, with the uuid passed in
as `freshUuid`. -/
def JoinSessionUseCase.execute (cmd : JoinSessionCommand)
    (found : Option Session) (freshUuid : String) :
    Except String (Session × JoinSessionResult) :=
  if jsTrim cmd.sessionId = "" then .error "Session ID cannot be empty"
  else if jsTrim cmd.participantName = "" then .error "Participant name cannot be empty"
  else
    (SessionId.make cmd.sessionId).bind (fun _ =>
      match found with
      | none => .error "Session not found"
      | some session =>
        if ¬ session.active then .error "Session is not active"
        else
          let participantId := cmd.role.toKey ++ "-" ++ freshUuid
          (Participant.make participantId cmd.participantName cmd.role).map
            (fun participant =>
              let saved := session.addParticipant participant
              (saved,
                ⟨participantId, saved.name, saved.scale,
                 saved.currentVote.map
                   (fun r => ⟨r.question, r.status, r.startedAt⟩)⟩)))

/-- Serialized participant record (`RedisSessionRepository.ts`, interface
SerializedSession). -/
structure SerializedParticipant where
  id : String
  name : String
  role : ParticipantRole
  isConnected : Bool
deriving DecidableEq, Repr

/-- Serialized vote record: value and reveal flag only — the vote's
`submittedAt` timestamp is not part of the stored layout. -/
structure SerializedVote where
  participantId : String
  voteValue : String
  isRevealed : Bool
deriving DecidableEq, Repr

/-- Serialized round record (used for both `currentVote` and the
`voteHistory` entries). -/
structure SerializedRound where
  question : String
  status : VotingStatus
  startedAt : Nat
  votes : List SerializedVote
deriving DecidableEq, Repr

/-- Serialized scale record (`type` tag plus name and values). -/
structure SerializedScale where
  type : String
  name : String
  values : List String
deriving DecidableEq, Repr

/-- Serialized session record — the value stored under the Redis key. -/
structure SerializedSession where
  id : String
  name : String
  scale : SerializedScale
  creatorId : String
  isActive : Bool
  participants : List SerializedParticipant
  currentVote : Option SerializedRound
  voteHistory : List SerializedRound
deriving DecidableEq, Repr

/-- Round serialization shared by the `currentVote` and `voteHistory`
branches of `RedisSessionRepository.serializeSession`. -/
def serializeRound (r : VotingRound) : SerializedRound :=
  ⟨r.question, r.status, r.startedAt,
   r.votes.map (fun p => ⟨p.1, p.2.value.value, p.2.revealed⟩)⟩

/-- Method `RedisSessionRepository.serializeSession(session)`. -/
def repoSerializeSession (s : Session) : SerializedSession :=
  { id := s.id,
    name := s.name,
    scale := ⟨s.scale.getType, s.scale.name, s.scale.values⟩,
    creatorId := s.creatorId,
    isActive := s.active,
    participants := s.getParticipants.map
      (fun p => ⟨p.id, p.name, p.role, p.connected⟩),
    currentVote := s.currentVote.map serializeRound,
    voteHistory := s.voteHistory.map serializeRound }

/-- Scale branch of `RedisSessionRepository.deserializeSession`: the three
known type tags ignore the stored values and rebuild the factory constant;
`custom` (with a non-empty name) revalidates the stored name and values;
anything else throws. -/
def deserializeScale (data : SerializedScale) : Except String Scale :=
  if data.type = "fibonacci" then .ok Scale.fibonacci
  else if data.type = "tshirt" then .ok Scale.tshirt
  else if data.type = "powerOfTwo" then .ok Scale.powerOfTwo
  else if data.type = "custom" ∧ ¬ data.name = "" then
    Scale.custom data.name data.values
  else .error "Unknown scale type"

/-- Participant-replay step of `deserializeSession`: rebuild and re-add
one serialized participant. -/
def addSerializedParticipant (s : Session) (pd : SerializedParticipant) :
    Except String Session := do
  let p ← Participant.make pd.id pd.name pd.role
  let p1 := if ¬ pd.isConnected then p.disconnect else p
  pure (s.addParticipant p1)

/-- Vote-replay step of `deserializeSession`: rebuild the `VoteValue`
against the deserialized scale and re-submit it through the session. -/
def addSerializedVote (scale : Scale) (now : Nat) (s : Session)
    (vd : SerializedVote) : Except String Session := do
  let voteValue ← VoteValue.make vd.voteValue scale
  s.submitVote vd.participantId voteValue now

/-- Method `RedisSessionRepository.deserializeSession(data)`: rebuilds the
session by replaying constructor, participant adds and round operations.
The stored `voteHistory` is never replayed (the code comments that history
"is automatically managed by the Session entity"), every rebuilt timestamp
is the deserialization time `now`, and a stored vote's `isRevealed` flag
is ignored (votes are re-submitted hidden, then revealed if and only if
the stored round status is `revealed`). -/
def deserializeSession (data : SerializedSession) (now : Nat) :
    Except String Session := do
  let sid ← SessionId.make data.id
  let scale ← deserializeScale data.scale
  let s0 ← Session.make sid data.name scale data.creatorId now
  let s1 := if ¬ data.isActive then s0.deactivate else s0
  let s2 ← data.participants.foldlM addSerializedParticipant s1
  match data.currentVote with
  | none => pure s2
  | some cv => do
    let s3 ← s2.startVoting cv.question now
    let s4 ← cv.votes.foldlM (addSerializedVote scale now) s3
    match cv.status with
    | VotingStatus.revealed => s4.revealVotes
    | VotingStatus.finished => s4.finishVoting
    | VotingStatus.voting => pure s4

/-- Participant entry of the gateway's `session:updated` payload. -/
structure WsParticipant where
  id : String
  name : String
  role : ParticipantRole
  isConnected : Bool
deriving DecidableEq, Repr

/-- Vote entry of the gateway payload: the emitted `submittedAt` is the
serialization time (`new Date()` in the source), not the vote's own
timestamp. -/
structure WsVote where
  participantId : String
  participantName : String
  value : String
  submittedAt : Nat
deriving DecidableEq, Repr

/-- Current-round entry of the gateway payload; `votes` and `statistics`
are `undefined` unless the round status is exactly `revealed`. -/
structure WsRound where
  question : String
  status : VotingStatus
  startedAt : Nat
  voteCount : Nat
  votes : Option (List WsVote)
  statistics : Option VotingStatistics
deriving DecidableEq, Repr

/-- The gateway's `session:updated` payload (`SocketManager.serializeSession`).
It has no round-history field. -/
structure WsSession where
  id : String
  name : String
  scale : SerializedScale
  creatorId : String
  isActive : Bool
  participants : List WsParticipant
  currentVote : Option WsRound
  isVotingActive : Bool
deriving DecidableEq, Repr

/-- Private `SocketManager.calculateStatistics(session, currentVote)`: a
row per stored vote with the participant's name (or `"Unknown"`), fed to
the shared statistics body. -/
def socketCalculateStatistics (s : Session) (r : VotingRound) :
    VotingStatistics :=
  calculateStatistics (r.votes.map (fun p =>
    ⟨p.1, ((s.findParticipant p.1).map (fun q => q.name)).getD "Unknown",
     p.2.value.value⟩))

/-- Method `SocketManager.serializeSession(session)` — the payload of every
`session:updated` broadcast.  Votes and statistics appear only when the
round status is `revealed`; the session's `voteHistory` is not serialized
at all. -/
def socketSerializeSession (s : Session) (now : Nat) : WsSession :=
  { id := s.id,
    name := s.name,
    scale := ⟨s.scale.getType, s.scale.name, s.scale.values⟩,
    creatorId := s.creatorId,
    isActive := s.active,
    participants := s.getParticipants.map
      (fun p => ⟨p.id, p.name, p.role, p.connected⟩),
    currentVote := s.currentVote.map (fun r =>
      { question := r.question,
        status := r.status,
        startedAt := r.startedAt,
        voteCount := r.getVoteCount,
        votes :=
          if r.status = VotingStatus.revealed then
            some (r.votes.map (fun p =>
              ⟨p.1,
               ((s.findParticipant p.1).map (fun q => q.name)).getD "Unknown",
               p.2.value.value, now⟩))
          else none,
        statistics :=
          if r.status = VotingStatus.revealed then
            some (socketCalculateStatistics s r)
          else none }),
    isVotingActive := s.isVotingActive }

/-- Method `SocketManager.notifySessionUpdate(sessionId)`: reload the
session (modelled by `found`) and, when present, broadcast its full
gateway serialization; an absent session broadcasts nothing. -/
def notifySessionUpdate (found : Option Session) (now : Nat) :
    Option WsSession :=
  found.map (fun s => socketSerializeSession s now)

/-- Join-handshake data of the gateway (`session:join` event); a missing
or empty `participantId` is modelled as `none` (it is tested for
truthiness in the source). -/
structure JoinData where
  sessionId : String
  participantName : String
  role : ParticipantRole
  participantId : Option String
deriving DecidableEq, Repr

/-- Outcome of the gateway join handshake: either an `error` event with
message and code, or success carrying the session now in the store and the
participant id the connection was attached to. -/
inductive JoinOutcome where
  | errorOut (message : String) (code : String)
  | joined (stored : Session) (attachedParticipantId : String)
deriving DecidableEq, Repr

/-- Method `SocketManager.handleSessionJoin(socket, data)`: when the client
supplies a participant id, it is only validated against the current
session — no join mutation runs and the store is untouched; without one,
the join use case creates a fresh participant. -/
def handleSessionJoin (found : Option Session) (data : JoinData)
    (freshUuid : String) : JoinOutcome :=
  match SessionId.make data.sessionId with
  | .error e => JoinOutcome.errorOut e "JOIN_SESSION_ERROR"
  | .ok _ =>
    match found with
    | none => JoinOutcome.errorOut "Session not found" "SESSION_NOT_FOUND"
    | some session =>
      if ¬ session.active then
        JoinOutcome.errorOut "Session is not active" "SESSION_INACTIVE"
      else
        match data.participantId with
        | some pid =>
          match session.findParticipant pid with
          | none =>
            JoinOutcome.errorOut "Participant not found in session" "PARTICIPANT_NOT_FOUND"
          | some _ => JoinOutcome.joined session pid
        | none =>
          match JoinSessionUseCase.execute
              ⟨data.sessionId, data.participantName, data.role⟩
              (some session) freshUuid with
          | .error e => JoinOutcome.errorOut e "JOIN_SESSION_ERROR"
          | .ok (saved, res) => JoinOutcome.joined saved res.participantId

instance {ε α : Type} [DecidableEq ε] [DecidableEq α] :
    DecidableEq (Except ε α) := fun a b =>
  match a, b with
  | .error e, .error f =>
    if h : e = f then .isTrue (by rw [h])
    else .isFalse (fun hc => h (Except.error.inj hc))
  | .ok x, .ok y =>
    if h : x = y then .isTrue (by rw [h])
    else .isFalse (fun hc => h (Except.ok.inj hc))
  | .error _, .ok _ => .isFalse (fun hc => Except.noConfusion hc)
  | .ok _, .error _ => .isFalse (fun hc => Except.noConfusion hc)

/-- Concrete fixture for the C6 witness: a voting round with two votes and
the session holding both voters. -/
def roundC6 : VotingRound :=
  ⟨"Estimate", 3,  VotingStatus.voting,
   [("p1", ⟨"p1", ⟨"5", Scale.fibonacci⟩, 4, false⟩),
    ("p2", ⟨"p2", ⟨"8", Scale.fibonacci⟩, 5, false⟩)]⟩

/-- Session fixture for the C6 witness. -/
def sessionC6 : Session :=
  ⟨"sess-6", "S6", Scale.fibonacci, "creator-6", true,
   [("p1", ⟨"p1", "Alice", ParticipantRole.participant, true⟩),
    ("p2", ⟨"p2", "Bob", ParticipantRole.participant, true⟩)],
   some roundC6, [], 0⟩

/-- Fixture for the C2 witness: a session whose current round is in
status `voting`. -/
def sessionC2a : Session :=
  ⟨"sess-2a", "S2", Scale.fibonacci, "creator-2", true,
   [("p1", ⟨"p1", "Ann", ParticipantRole.participant, true⟩)],
   some ⟨"Q1", 1, VotingStatus.voting, []⟩, [], 0⟩

/-- Fixture for the C2 witness: a session whose current round is in
status `revealed`. -/
def sessionC2b : Session :=
  ⟨"sess-2b", "S2", Scale.fibonacci, "creator-2", true,
   [("p1", ⟨"p1", "Ann", ParticipantRole.participant, true⟩)],
   some ⟨"Q1", 1, VotingStatus.revealed,
     [("p1", ⟨"p1", ⟨"5", Scale.fibonacci⟩, 2, true⟩)]⟩, [], 0⟩

/-- Fixture for the C5 witness: an active two-participant session. -/
def sessionC5 : Session :=
  ⟨"sess-5", "S5", Scale.fibonacci, "creator-5", true,
   [("p1", ⟨"p1", "Ann", ParticipantRole.participant, true⟩),
    ("p2", ⟨"p2", "Ben", ParticipantRole.spectator, true⟩)],
   none, [], 0⟩

/-- Fixture for the C4 witness: a deactivated session that still holds a
participant, a current round and history. -/
def sessionC4 : Session :=
  ⟨"sess-4", "S4", Scale.fibonacci, "creator-4", false,
   [("p1", ⟨"p1", "Ann", ParticipantRole.participant, true⟩)],
   some ⟨"Q4", 1, VotingStatus.voting, []⟩, [], 0⟩

/-- Fixture for C3: a session whose history holds one finished round. -/
def sessionC3a : Session :=
  ⟨"sess-3", "S3", Scale.fibonacci, "creator-3", true,
   [("p1", ⟨"p1", "Ann", ParticipantRole.participant, true⟩)], none,
   [⟨"Q1", 1, VotingStatus.finished,
     [("p1", ⟨"p1", ⟨"5", Scale.fibonacci⟩, 2, true⟩)]⟩], 0⟩

/-- Fixture for C3: the same session with an empty history. -/
def sessionC3b : Session :=
  ⟨"sess-3", "S3", Scale.fibonacci, "creator-3", true,
   [("p1", ⟨"p1", "Ann", ParticipantRole.participant, true⟩)], none, [], 0⟩

/-- Strings stored by the TS entities are already trimmed and non-empty
(their constructors trim and reject blanks). -/
def CleanString (x : String) : Prop :=
  jsTrim x = x ∧ ¬ x = ""

/-- Shape of a `Scale` as the TS factories and validated constructor can
produce it, phrased as what the repository's scale round trip needs: the
three reserved names carry exactly the factory constant, and any other
name revalidates to itself. -/
def WFScale (sc : Scale) : Prop :=
  (sc.name = "fibonacci" → sc = Scale.fibonacci) ∧
  (sc.name = "tshirt" → sc = Scale.tshirt) ∧
  (sc.name = "power-of-2" → sc = Scale.powerOfTwo) ∧
  (¬ sc.name = "fibonacci" → ¬ sc.name = "tshirt" → ¬ sc.name = "power-of-2" →
    Scale.make sc.name sc.values = .ok sc)

/-- One participant-map entry as `Session.addParticipant` creates it: the
key is the participant's own id and the strings are clean. -/
def WFParticipantEntry (kp : String × Participant) : Prop :=
  kp.1 = kp.2.id ∧ CleanString kp.2.id ∧ CleanString kp.2.name

/-- The participant under `k` exists and holds the voter role. -/
def canVoteIn (parts : List (String × Participant)) (k : String) : Bool :=
  ((assocGet parts k).map Participant.canVote).getD false

/-- One vote-map entry as `VotingRound.submitVote` creates it in a
reachable session: keyed by its own (clean) participant id, belonging to
a voter of the session, carrying the session's scale and a value that is
a sentinel or scale-valid. -/
def WFVoteEntry (sc : Scale) (parts : List (String × Participant))
    (kv : String × Vote) : Prop :=
  kv.1 = kv.2.participantId ∧ CleanString kv.1 ∧
  canVoteIn parts kv.1 = true ∧
  kv.2.value.scale = sc ∧ CleanString kv.2.value.value ∧
  (isSpecialValue kv.2.value.value = true ∨ sc.isValidValue kv.2.value.value = true)

/-- Round shape needed for the round trip: clean question, duplicate-free
vote keys, well-formed vote entries, and the reveal-flag coupling of
reachable current rounds (`voting` with all votes hidden, or `revealed`
with all votes revealed — a finished round is never `currentRound` in a
reachable session, since `finishVoting` archives it). -/
def WFRound (s : Session) (r : VotingRound) : Prop :=
  CleanString r.question ∧
  (r.votes.map Prod.fst).Nodup ∧
  (∀ kv ∈ r.votes, WFVoteEntry s.scale s.participants kv) ∧
  ((r.status = VotingStatus.voting ∧ ∀ kv ∈ r.votes, kv.2.revealed = false) ∨
   (r.status = VotingStatus.revealed ∧ ∀ kv ∈ r.votes, kv.2.revealed = true))

instance (x : String) : Decidable (CleanString x) :=
  show Decidable (jsTrim x = x ∧ ¬ x = "") from inferInstance

instance (sc : Scale) : Decidable (WFScale sc) := by
  unfold WFScale
  infer_instance

instance (kp : String × Participant) : Decidable (WFParticipantEntry kp) := by
  unfold WFParticipantEntry
  infer_instance

instance (sc : Scale) (parts : List (String × Participant))
    (kv : String × Vote) : Decidable (WFVoteEntry sc parts kv) := by
  unfold WFVoteEntry
  infer_instance

instance (s : Session) (r : VotingRound) : Decidable (WFRound s r) := by
  unfold WFRound
  infer_instance

/-- Fixture for the C1 witness: a reachable-shaped session with two
voters, a revealed current round and a finished round in the history. -/
def sessionC1 : Session :=
  ⟨"sess-1w", "Sprint", Scale.fibonacci, "creator-1", true,
   [("p1", ⟨"p1", "Ann", ParticipantRole.participant, true⟩),
    ("p2", ⟨"p2", "Ben", ParticipantRole.participant, true⟩)],
   some ⟨"Q1", 3, VotingStatus.revealed,
     [("p1", ⟨"p1", ⟨"5", Scale.fibonacci⟩, 4, true⟩),
      ("p2", ⟨"p2", ⟨"8", Scale.fibonacci⟩, 5, true⟩)]⟩,
   [⟨"Q0", 1, VotingStatus.finished, []⟩], 0⟩

theorem assocHas_cons {α : Type} (a : String × α) (t : List (String × α))
    (k : String) : assocHas (a :: t) k = (a.1 = k || assocHas t k) := by
  simp [assocHas, List.any_cons]

theorem assocSet_cond_true {α : Type} (m : List (String × α)) (k : String)
    (v : α) (h : assocHas m k = true) :
    assocSet m k v = m.map (fun p => if p.1 = k then (k, v) else p) := by
  unfold assocHas at h
  unfold assocSet
  rw [h]
  simp

theorem assocSet_of_not_has {α : Type} (m : List (String × α)) (k : String)
    (v : α) (h : assocHas m k = false) : assocSet m k v = m ++ [(k, v)] := by
  unfold assocHas at h
  unfold assocSet
  rw [h]
  simp

theorem assocSet_length_of_has {α : Type} (m : List (String × α)) (k : String)
    (v : α) (h : assocHas m k = true) : (assocSet m k v).length = m.length := by
  rw [assocSet_cond_true m k v h]
  simp

theorem assocSet_keys_of_has {α : Type} (m : List (String × α)) (k : String)
    (v : α) (h : assocHas m k = true) :
    (assocSet m k v).map Prod.fst = m.map Prod.fst := by
  rw [assocSet_cond_true m k v h]
  rw [List.map_map]
  apply List.map_congr_left
  intro p _
  by_cases hp : p.1 = k
  · simp [hp]
  · simp [hp]

theorem assocGet_append_single {α : Type} (m : List (String × α)) (k : String)
    (v : α) (h : assocHas m k = false) : assocGet (m ++ [(k, v)]) k = some v := by
  induction m with
  | nil => simp [assocGet]
  | cons a t ih =>
    rw [assocHas_cons] at h
    simp only [Bool.or_eq_false_iff] at h
    have hak : ¬ a.1 = k := by simpa using h.1
    simp only [List.cons_append]
    simp [assocGet, List.find?_cons, hak]
    have := ih h.2
    simpa [assocGet] using this

theorem assocGet_map_replace {α : Type} (m : List (String × α)) (k : String)
    (v : α) (h : assocHas m k = true) :
    assocGet (m.map (fun p => if p.1 = k then (k, v) else p)) k = some v := by
  induction m with
  | nil => simp [assocHas] at h
  | cons a t ih =>
    by_cases hak : a.1 = k
    · simp only [List.map_cons, if_pos hak]
      simp [assocGet, List.find?_cons]
    · rw [assocHas_cons] at h
      simp only [hak] at h
      simp only [List.map_cons, if_neg hak]
      have ht : assocHas t k = true := by simpa using h
      have := ih ht
      simpa [assocGet, List.find?_cons, hak] using this

theorem assocGet_assocSet_self {α : Type} (m : List (String × α)) (k : String)
    (v : α) : assocGet (assocSet m k v) k = some v := by
  by_cases h : assocHas m k
  · rw [assocSet_cond_true m k v h]
    exact assocGet_map_replace m k v h
  · rw [assocSet_of_not_has m k v (by simpa using h)]
    exact assocGet_append_single m k v (by simpa using h)

theorem length_filterMap_of_isSome {α β : Type} (f : α → Option β)
    (l : List α) (h : ∀ x ∈ l, (f x).isSome = true) :
    (l.filterMap f).length = l.length := by
  induction l with
  | nil => simp
  | cons a t ih =>
    have ha := h a (by simp)
    rcases hfa : f a with _ | b
    · rw [hfa] at ha
      simp at ha
    · rw [List.filterMap_cons, hfa]
      simp only [List.length_cons]
      rw [ih (fun x hx => h x (by simp [hx]))]

theorem calculateStatistics_totalVotes (votes : List VoteResult) :
    (calculateStatistics votes).totalVotes = votes.length := by
  unfold calculateStatistics
  by_cases h : votes = []
  · simp [h]
  · simp [h]

theorem collectVoteResults_length (s : Session) (r : VotingRound)
    (h : ∀ p ∈ r.votes, (s.findParticipant p.1).isSome = true) :
    (collectVoteResults s r).length = r.votes.length := by
  unfold collectVoteResults
  apply length_filterMap_of_isSome
  intro p hp
  have := h p hp
  rcases hf : s.findParticipant p.1 with _ | q
  · rw [hf] at this
    simp at this
  · simp

/-- C10 (amended): for every `Scale` — predefined or custom — and every
string `v`, `isValidValue(v)` is true if and only if `v` is a member of
`values()`; the sentinel tokens are not excluded by `isValidValue`.  For
the three predefined scales, whose value lists contain no sentinel token,
the original statement (member and not a sentinel) does hold. -/
theorem C10_isValid_amended :
    (∀ (s : Scale) (v : String), s.isValidValue v = true ↔ v ∈ s.values) ∧
    (∀ v : String, Scale.fibonacci.isValidValue v = true ↔
      (v ∈ Scale.fibonacci.values ∧ isSpecialValue v = false)) ∧
    (∀ v : String, Scale.tshirt.isValidValue v = true ↔
      (v ∈ Scale.tshirt.values ∧ isSpecialValue v = false)) ∧
    (∀ v : String, Scale.powerOfTwo.isValidValue v = true ↔
      (v ∈ Scale.powerOfTwo.values ∧ isSpecialValue v = false)) := by
  have base : ∀ (s : Scale) (v : String), s.isValidValue v = true ↔ v ∈ s.values := by
    intro s v
    simp [Scale.isValidValue]
  refine ⟨base, ?_, ?_, ?_⟩ <;>
    (intro v
     rw [base]
     constructor
     · intro hv
       refine ⟨hv, ?_⟩
       fin_cases hv <;> rfl
     · exact fun hv => hv.1)

/-- C10 counterexample: the custom scale named `"custom"` with values
`["?", "1"]` passes `Scale.custom` validation, yet `isValidValue("?")` is
true although `"?"` is one of the three sentinel tokens — refuting
"isValid(v) iff v is a non-sentinel member of values()" as stated. -/
theorem C10_counterexample :
    Scale.custom "custom" ["?", "1"] = .ok ⟨"custom", ["?", "1"]⟩ ∧
    ¬ ((Scale.mk "custom" ["?", "1"]).isValidValue "?" = true ↔
        ("?" ∈ (Scale.mk "custom" ["?", "1"]).values ∧ isSpecialValue "?" = false)) := by
  refine ⟨by decide, by decide⟩

/-- C8: for every `VotingRound`, `submitVote` fails with the
round-not-active error whenever the status is `revealed` or `finished`;
when the status is `voting` and the participant key is already present,
the new `Vote` replaces the old entry under the same key — the vote
count and the key list are unchanged and the stored vote for that key is
the fresh one (new timestamp, hidden). -/
theorem C8_submitVote_replace (r : VotingRound) (pid : String)
    (vv : VoteValue) (now : Nat) :
    ((r.status = VotingStatus.revealed ∨ r.status = VotingStatus.finished) →
      r.submitVote pid vv now = .error "Cannot submit vote when voting is not active") ∧
    (r.status = VotingStatus.voting → ¬ jsTrim pid = "" →
      assocHas r.votes pid = true →
      r.submitVote pid vv now =
        .ok { r with votes := assocSet r.votes pid ⟨jsTrim pid, vv, now, false⟩ } ∧
      (assocSet r.votes pid (⟨jsTrim pid, vv, now, false⟩ : Vote)).length = r.votes.length ∧
      (assocSet r.votes pid (⟨jsTrim pid, vv, now, false⟩ : Vote)).map Prod.fst =
        r.votes.map Prod.fst ∧
      assocGet (assocSet r.votes pid (⟨jsTrim pid, vv, now, false⟩ : Vote)) pid =
        some ⟨jsTrim pid, vv, now, false⟩) := by
  constructor
  · intro h
    rcases h with h | h <;>
      simp [VotingRound.submitVote, VotingRound.isActive, h]
  · intro hs hp hh
    refine ⟨?_, assocSet_length_of_has _ _ _ hh, assocSet_keys_of_has _ _ _ hh,
      assocGet_assocSet_self _ _ _⟩
    simp [VotingRound.submitVote, VotingRound.isActive, hs, Vote.make, hp,
      Except.map]

/-- C8 witness: a concrete `voting` round where `p1` already voted `"5"`;
re-submitting `"8"` replaces the entry in place. -/
theorem C8_submitVote_replace_witness :
    (VotingRound.mk "Q" 0 VotingStatus.voting
        [("p1", ⟨"p1", ⟨"5", Scale.fibonacci⟩, 1, false⟩)]).submitVote
      "p1" ⟨"8", Scale.fibonacci⟩ 2 =
      .ok (VotingRound.mk "Q" 0 VotingStatus.voting
        [("p1", ⟨"p1", ⟨"8", Scale.fibonacci⟩, 2, false⟩)]) := by
  have h := (C8_submitVote_replace
    (VotingRound.mk "Q" 0 VotingStatus.voting
      [("p1", ⟨"p1", ⟨"5", Scale.fibonacci⟩, 1, false⟩)])
    "p1" ⟨"8", Scale.fibonacci⟩ 2).2 rfl (by decide) (by decide)
  rw [h.1]
  rfl

/-- C6: for every `VotingRound` in status `voting` holding N votes,
`reveal()` succeeds, sets the status to `revealed` and marks all N stored
votes revealed (the vote count is preserved); `reveal()` fails with the
round-not-active error whenever the status is not `voting`; and the
statistics computed over the reveal result rows report
`totalVotes = N` whenever every voter is still found in the session (as
is the case in every reachable session, where removing a participant also
removes their vote). -/
theorem C6_reveal_marks_all (r : VotingRound) :
    (r.status = VotingStatus.voting →
      r.reveal = .ok { r with status := VotingStatus.revealed,
                              votes := r.votes.map (fun p => (p.1, p.2.reveal)) } ∧
      (r.votes.map (fun p => (p.1, p.2.reveal))).length = r.votes.length ∧
      (∀ p ∈ r.votes.map (fun q => (q.1, q.2.reveal)), p.2.revealed = true)) ∧
    (¬ r.status = VotingStatus.voting →
      r.reveal = .error "Cannot reveal votes when voting is not active") ∧
    (∀ s : Session, (∀ p ∈ r.votes, (s.findParticipant p.1).isSome = true) →
      (calculateStatistics (collectVoteResults s r)).totalVotes = r.getVoteCount) := by
  refine ⟨?_, ?_, ?_⟩
  · intro h
    refine ⟨?_, by simp, ?_⟩
    · simp [VotingRound.reveal, VotingRound.isActive, h]
    · intro p hp
      simp only [List.mem_map] at hp
      obtain ⟨q, _, rfl⟩ := hp
      rfl
  · intro h
    simp [VotingRound.reveal, VotingRound.isActive, h]
  · intro s hs
    rw [calculateStatistics_totalVotes]
    exact collectVoteResults_length s r hs

/-- C6 witness: the theorem applied to the concrete two-vote round (and,
for the failure branch, to the same round already revealed). -/
theorem C6_reveal_marks_all_witness :
    roundC6.reveal = .ok { roundC6 with
      status := VotingStatus.revealed,
      votes := roundC6.votes.map (fun p => (p.1, p.2.reveal)) } ∧
    ({ roundC6 with status := VotingStatus.revealed } : VotingRound).reveal =
      .error "Cannot reveal votes when voting is not active" ∧
    (calculateStatistics (collectVoteResults sessionC6 roundC6)).totalVotes = 2 := by
  refine ⟨((C6_reveal_marks_all roundC6).1 rfl).1, ?_, ?_⟩
  · exact (C6_reveal_marks_all { roundC6 with status := VotingStatus.revealed }).2.1
      (by decide)
  · rw [(C6_reveal_marks_all roundC6).2.2 sessionC6 (by decide)]
    rfl

/-- C7: evaluation of `VotingRound.finish` at a reachable round that is
still in status `voting` with one submitted vote.  `finish()` sets the
status to `finished` but the stored vote stays hidden
(`revealed = false`): the method mutates the status first, so its
`areVotesRevealed()` guard is always true afterwards and the implicit
reveal never runs.  A second `finish()` on the round is a no-op, and at
the session level a second `finishVoting()` is rejected before touching
the history, so the round is not duplicated. -/
theorem C7_finish_skips_reveal :
    ((VotingRound.make "Estimate task" 0).bind
        (fun r => r.submitVote "p1" ⟨"5", Scale.fibonacci⟩ 1)).map
      (fun r => (r.finish.status,
                 r.finish.votes.map (fun p => p.2.revealed),
                 r.finish.finish == r.finish))
      = .ok (VotingStatus.finished, [false], true) ∧
    ((do
      let s0 ← Session.make "sess-7" "S7" Scale.fibonacci "creator-7" 0
      let s1 := s0.addParticipant ⟨"p1", "Ann", ParticipantRole.participant, true⟩
      let s2 ← s1.startVoting "Q7" 1
      let s3 ← s2.submitVote "p1" ⟨"5", Scale.fibonacci⟩ 2
      let s4 ← s3.finishVoting
      pure (s4.voteHistory.length, s4.currentVote, s4.finishVoting)) :
        Except String (Nat × Option VotingRound × Except String Session))
      = .ok (1, none, .error "No active vote to finish") := by
  refine ⟨by decide, by decide⟩

/-- C9: a reachable `VotingRound` state violating the visibility
invariant "every stored vote is revealed once the status is `revealed` or
`finished`": start a round, submit two votes, finish it directly from
`voting` — the archived round has status `finished` while both votes
still carry `revealed = false`, because `finish()` checks
`areVotesRevealed()` only after setting the status to `finished`. -/
theorem C9_finished_round_with_hidden_votes :
    ((do
      let s0 ← Session.make "sess-9" "S9" Scale.fibonacci "creator-9" 0
      let s1 := s0.addParticipant ⟨"p1", "Ann", ParticipantRole.participant, true⟩
      let s2 := s1.addParticipant ⟨"p2", "Ben", ParticipantRole.participant, true⟩
      let s3 ← s2.startVoting "Q9" 1
      let s4 ← s3.submitVote "p1" ⟨"5", Scale.fibonacci⟩ 2
      let s5 ← s4.submitVote "p2" ⟨"8", Scale.fibonacci⟩ 3
      let s6 ← s5.finishVoting
      pure (s6.voteHistory.map (fun r => (r.status, r.votes.map (fun p => p.2.revealed))))) :
        Except String (List (VotingStatus × List Bool)))
      = .ok [(VotingStatus.finished, [false, false])] := by decide

/-- C2 counterexample: drive a session to a current round in status
`revealed` (revealed but not finished); the claim requires `startVoting`
to fail `VotingAlreadyActive` and leave the session unchanged, but the
code's guard is `isVotingActive()` (status strictly `voting`), so
`startVoting` succeeds — and the revealed round is silently replaced
without ever reaching `voteHistory` (history stays empty). -/
theorem C2_counterexample :
    ((do
      let s0 ← Session.make "sess-2" "S2" Scale.fibonacci "creator-2" 0
      let s1 := s0.addParticipant ⟨"p1", "Ann", ParticipantRole.participant, true⟩
      let s2 ← s1.startVoting "Q1" 1
      let s3 ← s2.submitVote "p1" ⟨"5", Scale.fibonacci⟩ 2
      let s4 ← s3.revealVotes
      pure (s4.currentVote.map (fun r => r.status),
        (s4.startVoting "New question" 9).map
          (fun t => (t.currentVote, t.voteHistory.length)))) :
        Except String (Option VotingStatus ×
          Except String (Option VotingRound × Nat)))
      = .ok (some VotingStatus.revealed,
          .ok (some ⟨"New question", 9, VotingStatus.voting, []⟩, 0)) := by
  decide

/-- C2 (amended): `startVoting(question)` fails with the
voting-already-active error if and only if a current round exists whose
status is exactly `voting`; in every other case — no current round, or a
current round in status `revealed` or `finished` — it succeeds and
replaces `currentRound` with a fresh round in status `voting` with an
empty vote map (a revealed-but-unfinished round is discarded, not
archived). -/
theorem C2_startVoting_amended (s : Session) (q : String) (now : Nat) :
    (s.isVotingActive = true ↔
      (∃ r, s.currentVote = some r ∧ r.status = VotingStatus.voting)) ∧
    (s.isVotingActive = true →
      s.startVoting q now = .error "Cannot start voting while another vote is active") ∧
    (s.isVotingActive = false → ¬ jsTrim q = "" →
      s.startVoting q now =
        .ok { s with currentVote := some ⟨jsTrim q, now, VotingStatus.voting, []⟩ }) := by
  refine ⟨?_, ?_, ?_⟩
  · cases hc : s.currentVote with
    | none => simp [Session.isVotingActive, hc]
    | some r => simp [Session.isVotingActive, hc, VotingRound.isActive]
  · intro h
    simp [Session.startVoting, h]
  · intro h hq
    simp [Session.startVoting, h, VotingRound.make, hq, Except.map]

/-- C2 witness: the amended theorem applied to the two concrete
sessions. -/
theorem C2_startVoting_amended_witness :
    sessionC2a.startVoting "Q" 5 =
      .error "Cannot start voting while another vote is active" ∧
    sessionC2b.startVoting "Quest" 5 =
      .ok { sessionC2b with
        currentVote := some ⟨"Quest", 5, VotingStatus.voting, []⟩ } := by
  refine ⟨(C2_startVoting_amended sessionC2a "Q" 5).2.1 (by decide), ?_⟩
  have h := (C2_startVoting_amended sessionC2b "Quest" 5).2.2 (by decide) (by decide)
  rw [h]
  rfl

/-- C5: when the join handshake supplies a `participantId` that is found
in the session, the gateway attaches the connection to that existing
participant and executes no join mutation: the outcome carries the store
session exactly as it was loaded (`s` itself — so the participant map and
the participant count after the (re)connect equal those before it), and
the attached id is the supplied one. -/
theorem C5_reconnect_attaches_existing (s : Session) (data : JoinData)
    (freshUuid : String) (pid : String) (p : Participant)
    (hsid : ∃ v, SessionId.make data.sessionId = .ok v)
    (hact : s.active = true)
    (hpid : data.participantId = some pid)
    (hfind : s.findParticipant pid = some p) :
    handleSessionJoin (some s) data freshUuid = JoinOutcome.joined s pid := by
  obtain ⟨v, hv⟩ := hsid
  simp [handleSessionJoin, hv, hact, hpid, hfind]

/-- C5 witness: reconnecting with the known id `"p1"` attaches to the
existing participant and leaves the stored session untouched. -/
theorem C5_reconnect_attaches_existing_witness :
    handleSessionJoin (some sessionC5)
      ⟨"sess-5", "Ann", ParticipantRole.participant, some "p1"⟩ "uuid-1" =
      JoinOutcome.joined sessionC5 "p1" :=
  C5_reconnect_attaches_existing sessionC5
    ⟨"sess-5", "Ann", ParticipantRole.participant, some "p1"⟩ "uuid-1" "p1"
    ⟨"p1", "Ann", ParticipantRole.participant, true⟩
    ⟨"sess-5", by decide⟩ (by decide) rfl (by decide)

/-- C4: every mutating operation on a deactivated session — joining (the
participant-adding mutation), starting a round, submitting a vote,
revealing and finishing — is rejected with the session-inactive error by
its use case, before any state change or save (an error result means no
mutated session is ever produced, so the stored state is unchanged).  The
hypotheses only require the commands to pass their own input validation
(non-blank fields, well-formed session id). -/
theorem C4_inactive_rejects_mutators (s : Session) (hs : s.active = false)
    (c1 : SubmitVoteCommand) (c2 : RevealVotesCommand)
    (c3 : FinishVotingCommand) (c4 : StartVotingCommand)
    (c5 : JoinSessionCommand) (now : Nat) (rid uuid : String)
    (h1a : ¬ jsTrim c1.sessionId = "") (h1b : ¬ jsTrim c1.participantId = "")
    (h1c : ¬ jsTrim c1.voteValue = "")
    (h1d : ∃ v, SessionId.make c1.sessionId = .ok v)
    (h2a : ¬ jsTrim c2.sessionId = "") (h2b : ¬ jsTrim c2.initiatorId = "")
    (h2d : ∃ v, SessionId.make c2.sessionId = .ok v)
    (h3a : ¬ c3.sessionId = "") (h3b : ¬ c3.initiatorId = "")
    (h3d : ∃ v, SessionId.make c3.sessionId = .ok v)
    (h4a : ¬ jsTrim c4.sessionId = "") (h4b : ¬ jsTrim c4.question = "")
    (h4c : ¬ jsTrim c4.initiatorId = "")
    (h4d : ∃ v, SessionId.make c4.sessionId = .ok v)
    (h5a : ¬ jsTrim c5.sessionId = "") (h5b : ¬ jsTrim c5.participantName = "")
    (h5d : ∃ v, SessionId.make c5.sessionId = .ok v) :
    SubmitVoteUseCase.execute c1 (some s) now = .error "Session is not active" ∧
    RevealVotesUseCase.execute c2 (some s) = .error "Session is not active" ∧
    FinishVotingUseCase.execute c3 (some s) = .error "Session is not active" ∧
    StartVotingUseCase.execute c4 (some s) now rid = .error "Session is not active" ∧
    JoinSessionUseCase.execute c5 (some s) uuid = .error "Session is not active" := by
  obtain ⟨v1, hv1⟩ := h1d
  obtain ⟨v2, hv2⟩ := h2d
  obtain ⟨v3, hv3⟩ := h3d
  obtain ⟨v4, hv4⟩ := h4d
  obtain ⟨v5, hv5⟩ := h5d
  refine ⟨?_, ?_, ?_, ?_, ?_⟩
  · simp [SubmitVoteUseCase.execute, h1a, h1b, h1c, hv1, hs, Except.bind]
  · simp [RevealVotesUseCase.execute, h2a, h2b, hv2, hs, Except.bind]
  · simp [FinishVotingUseCase.execute, h3a, h3b, hv3, hs, Except.bind]
  · simp [StartVotingUseCase.execute, h4a, h4b, h4c, hv4, hs, Except.bind]
  · simp [JoinSessionUseCase.execute, h5a, h5b, hv5, hs, Except.bind]

/-- C4 witness: the theorem applied to the concrete deactivated session
with concrete well-formed commands. -/
theorem C4_inactive_rejects_mutators_witness :
    SubmitVoteUseCase.execute ⟨"sess-4", "p1", "5"⟩ (some sessionC4) 9 =
      .error "Session is not active" ∧
    RevealVotesUseCase.execute ⟨"sess-4", "p1"⟩ (some sessionC4) =
      .error "Session is not active" ∧
    FinishVotingUseCase.execute ⟨"sess-4", "p1"⟩ (some sessionC4) =
      .error "Session is not active" ∧
    StartVotingUseCase.execute ⟨"sess-4", "Q", "p1"⟩ (some sessionC4) 9 "r1" =
      .error "Session is not active" ∧
    JoinSessionUseCase.execute ⟨"sess-4", "Cara", ParticipantRole.participant⟩
      (some sessionC4) "u1" = .error "Session is not active" :=
  C4_inactive_rejects_mutators sessionC4 (by decide)
    ⟨"sess-4", "p1", "5"⟩ ⟨"sess-4", "p1"⟩ ⟨"sess-4", "p1"⟩
    ⟨"sess-4", "Q", "p1"⟩ ⟨"sess-4", "Cara", ParticipantRole.participant⟩
    9 "r1" "u1"
    (by decide) (by decide) (by decide) ⟨"sess-4", by decide⟩
    (by decide) (by decide) ⟨"sess-4", by decide⟩
    (by decide) (by decide) ⟨"sess-4", by decide⟩
    (by decide) (by decide) (by decide) ⟨"sess-4", by decide⟩
    (by decide) (by decide) ⟨"sess-4", by decide⟩

/-- C3 counterexample: two sessions that differ in their round history
produce identical `session:updated` payloads — the gateway's
`serializeSession` has no round-history field at all, so the broadcast is
not a complete snapshot of the §3 aggregate and does not determine its
`roundHistory`. -/
theorem C3_counterexample :
    socketSerializeSession sessionC3a 9 = socketSerializeSession sessionC3b 9 ∧
    ¬ sessionC3a = sessionC3b ∧
    ¬ sessionC3a.voteHistory = sessionC3b.voteHistory := by
  refine ⟨by decide, by decide, by decide⟩

/-- C3 (amended): the `session:updated` payload emitted by the gateway
determines the session's id, name, scale (name and values), creatorId,
active flag, the full participant list, `isVotingActive`, and the current
round's question, status, start time and vote count — but not the round
history, which is omitted from the payload (and not the hidden votes of a
round still in status `voting`, of which only the count is serialized). -/
theorem C3_payload_determines (s1 s2 : Session) (now : Nat)
    (h : socketSerializeSession s1 now = socketSerializeSession s2 now) :
    s1.id = s2.id ∧ s1.name = s2.name ∧ s1.scale = s2.scale ∧
    s1.creatorId = s2.creatorId ∧ s1.active = s2.active ∧
    s1.getParticipants = s2.getParticipants ∧
    s1.isVotingActive = s2.isVotingActive ∧
    s1.currentVote.map (fun r => (r.question, r.status, r.startedAt, r.votes.length)) =
      s2.currentVote.map (fun r => (r.question, r.status, r.startedAt, r.votes.length)) := by
  refine ⟨congrArg WsSession.id h, congrArg WsSession.name h, ?_,
    congrArg WsSession.creatorId h, congrArg WsSession.isActive h, ?_, ?_, ?_⟩
  · have hn : s1.scale.name = s2.scale.name :=
      congrArg (fun w => w.scale.name) h
    have hv : s1.scale.values = s2.scale.values :=
      congrArg (fun w => w.scale.values) h
    cases hs1 : s1.scale with
    | mk n1 v1 =>
      cases hs2 : s2.scale with
      | mk n2 v2 =>
        rw [hs1, hs2] at hn hv
        simp at hn hv
        rw [hn, hv]
  · have hp := congrArg WsSession.participants h
    have finj : Function.Injective
        (fun p : Participant => (⟨p.id, p.name, p.role, p.connected⟩ : WsParticipant)) := by
      intro a b hab
      cases a
      cases b
      simpa [WsParticipant.mk.injEq] using hab
    exact (List.map_injective_iff.mpr finj) hp
  · exact congrArg WsSession.isVotingActive h
  · have hcv := congrArg (fun w =>
      Option.map (fun wr : WsRound => (wr.question, wr.status, wr.startedAt, wr.voteCount))
        w.currentVote) h
    simpa [socketSerializeSession, Option.map_map, Function.comp,
      VotingRound.getVoteCount] using hcv

/-- C3 witness: the amended theorem applied to the two concrete
history-differing sessions, whose payloads coincide. -/
theorem C3_payload_determines_witness :
    sessionC3a.id = sessionC3b.id ∧ sessionC3a.name = sessionC3b.name ∧
    sessionC3a.scale = sessionC3b.scale ∧
    sessionC3a.creatorId = sessionC3b.creatorId ∧
    sessionC3a.active = sessionC3b.active ∧
    sessionC3a.getParticipants = sessionC3b.getParticipants ∧
    sessionC3a.isVotingActive = sessionC3b.isVotingActive ∧
    sessionC3a.currentVote.map (fun r => (r.question, r.status, r.startedAt, r.votes.length)) =
      sessionC3b.currentVote.map (fun r => (r.question, r.status, r.startedAt, r.votes.length)) :=
  C3_payload_determines sessionC3a sessionC3b 9 (by decide)

/-- C1 counterexample: a session reached by create → join → start →
submit → reveal → finish holds one finished round in `roundHistory`;
serializing it and deserializing the result yields a session whose
`roundHistory` is empty — `deserializeSession` never replays the stored
`voteHistory`, so `deserializeSession ∘ serializeSession` is not the
identity on §3 Sessions. -/
theorem C1_counterexample :
    ((do
      let s0 ← Session.make "sess-1" "Sprint" Scale.fibonacci "creator-1" 0
      let s1 := s0.addParticipant ⟨"p1", "Ann", ParticipantRole.participant, true⟩
      let s2 ← s1.startVoting "Q1" 1
      let s3 ← s2.submitVote "p1" ⟨"5", Scale.fibonacci⟩ 2
      let s4 ← s3.revealVotes
      let s5 ← s4.finishVoting
      pure (s5.voteHistory.length,
        (deserializeSession (repoSerializeSession s5) 99).map
          (fun t => t.voteHistory.length))) :
        Except String (Nat × Except String Nat))
      = .ok (1, .ok 0) := by decide

theorem deserializeScale_roundtrip (sc : Scale) (h : WFScale sc) :
    deserializeScale ⟨sc.getType, sc.name, sc.values⟩ = .ok sc := by
  obtain ⟨hf, ht, hp, hc⟩ := h
  by_cases h1 : sc.name = "fibonacci"
  · rw [hf h1]
    decide
  · by_cases h2 : sc.name = "tshirt"
    · rw [ht h2]
      decide
    · by_cases h3 : sc.name = "power-of-2"
      · rw [hp h3]
        decide
      · have hm := hc h1 h2 h3
        have hne : ¬ sc.name = "" := by
          intro he
          rw [Scale.make, he] at hm
          simp [jsTrim] at hm
        have hg : sc.getType = "custom" := by
          simp [Scale.getType, h1, h2, h3]
        rw [deserializeScale, hg]
        simp [hne, Scale.custom, hm]

theorem assocHas_append {α : Type} (a b : List (String × α)) (k : String) :
    assocHas (a ++ b) k = (assocHas a k || assocHas b k) := by
  simp [assocHas, List.any_append]

theorem exceptBind_ok {ε α β : Type} (a : α) (f : α → Except ε β) :
    (Except.ok a >>= f : Except ε β) = f a := rfl

theorem foldlM_addSerializedParticipant (ps : List (String × Participant)) :
    ∀ s : Session,
    (∀ kp ∈ ps, WFParticipantEntry kp) →
    (∀ kp ∈ ps, assocHas s.participants kp.1 = false) →
    (ps.map Prod.fst).Nodup →
    ((ps.map (fun kp =>
        (⟨kp.2.id, kp.2.name, kp.2.role, kp.2.connected⟩ : SerializedParticipant))).foldlM
      addSerializedParticipant s) =
      .ok { s with participants := s.participants ++ ps } := by
  induction ps with
  | nil =>
    intro s _ _ _
    simp only [List.map_nil, List.append_nil]
    rfl
  | cons kp t ih =>
    intro s hwf hfresh hnd
    obtain ⟨k, p⟩ := kp
    obtain ⟨pid, pname, prole, pconn⟩ := p
    obtain ⟨hkey, hidc, hnamec⟩ := hwf _ (by exact List.mem_cons_self _ _)
    simp only at hkey
    subst hkey
    obtain ⟨hid1, hid2⟩ := hidc
    obtain ⟨hn1, hn2⟩ := hnamec
    simp only at hid1 hid2 hn1 hn2
    have hmk : Participant.make k pname prole = .ok ⟨k, pname, prole, true⟩ := by
      simp [Participant.make, hid1, hid2, hn1, hn2]
    have hfr : assocHas s.participants k = false :=
      hfresh _ (List.mem_cons_self _ _)
    have hset : ∀ q : Participant, assocSet s.participants k q = s.participants ++ [(k, q)] :=
      fun q => assocSet_of_not_has _ _ _ hfr
    have hstep : addSerializedParticipant s ⟨k, pname, prole, pconn⟩ =
        .ok { s with participants :=
          s.participants ++ [(k, ⟨k, pname, prole, pconn⟩)] } := by
      rw [addSerializedParticipant, hmk]
      cases pconn with
      | true =>
        simp [Except.bind, Session.addParticipant, Participant.disconnect, hset]
      | false =>
        simp [Except.bind, Session.addParticipant, Participant.disconnect, hset]
    rw [List.map_cons, List.foldlM_cons, hstep, exceptBind_ok]
    have hnd2 : (List.map Prod.fst t).Nodup := (List.nodup_cons.mp (by simpa using hnd)).2
    have hknot : k ∉ t.map Prod.fst := (List.nodup_cons.mp (by simpa using hnd)).1
    have ihres := ih { s with participants :=
        s.participants ++ [(k, ⟨k, pname, prole, pconn⟩)] }
      (fun kq hq => hwf kq (List.mem_cons_of_mem _ hq))
      (fun kq hq => by
        simp only [assocHas_append]
        rw [hfresh kq (List.mem_cons_of_mem _ hq)]
        have hne : ¬ k = kq.1 := by
          intro he
          exact hknot (he ▸ List.mem_map_of_mem Prod.fst hq)
        simp [assocHas, hne])
      hnd2
    rw [ihres]
    simp [List.append_assoc]

theorem foldlM_addSerializedVote (now : Nat) (vs : List (String × Vote)) :
    ∀ (s : Session) (r : VotingRound),
    s.currentVote = some r →
    r.status = VotingStatus.voting →
    (∀ kv ∈ vs, WFVoteEntry s.scale s.participants kv) →
    (∀ kv ∈ vs, assocHas r.votes kv.1 = false) →
    (vs.map Prod.fst).Nodup →
    ((vs.map (fun kv =>
        (⟨kv.1, kv.2.value.value, kv.2.revealed⟩ : SerializedVote))).foldlM
      (addSerializedVote s.scale now) s) =
      .ok { s with currentVote := some { r with votes := r.votes ++ vs.map (fun kv => (kv.1, ⟨kv.2.participantId, kv.2.value, now, false⟩)) } } := by
  induction vs with
  | nil =>
    intro s r hcur hstat _ _ _
    simp only [List.map_nil, List.append_nil]
    rw [← hcur]
    rfl
  | cons kv t ih =>
    intro s r hcur hstat hwf hfresh hnd
    obtain ⟨k, v⟩ := kv
    obtain ⟨vpid, vvalue, vts, vrev⟩ := v
    obtain ⟨vraw, vscale⟩ := vvalue
    obtain ⟨hkpid, hkc, hcv, hsc, hvc, hval⟩ := hwf _ (List.mem_cons_self _ _)
    simp only at hkpid hkc hcv hsc hvc hval
    subst hkpid
    subst hsc
    have hvvmk : VoteValue.make vraw s.scale = .ok ⟨vraw, s.scale⟩ := by
      rcases hval with h | h <;> simp [VoteValue.make, hvc.1, hvc.2, h]
    obtain ⟨p, hg, hcanv⟩ : ∃ p, assocGet s.participants k = some p ∧ p.canVote = true := by
      rcases hgp : assocGet s.participants k with _ | p
      · rw [canVoteIn, hgp] at hcv
        simp at hcv
      · rw [canVoteIn, hgp] at hcv
        simp at hcv
        exact ⟨p, rfl, hcv⟩
    have hfr : assocHas r.votes k = false := hfresh _ (List.mem_cons_self _ _)
    have hset : ∀ w : Vote, assocSet r.votes k w = r.votes ++ [(k, w)] :=
      fun w => assocSet_of_not_has _ _ _ hfr
    have hsub : (⟨k, ⟨vraw, s.scale⟩, now, false⟩ : Vote) =
        ⟨jsTrim k, ⟨vraw, s.scale⟩, now, false⟩ := by
      rw [hkc.1]
    have hstep : addSerializedVote s.scale now s ⟨k, vraw, vrev⟩ =
        .ok { s with currentVote := some { r with votes :=
          r.votes ++ [(k, ⟨k, ⟨vraw, s.scale⟩, now, false⟩)] } } := by
      simp only [addSerializedVote, hvvmk, exceptBind_ok]
      simp only [Session.submitVote, hcur, Session.findParticipant, hg, hcanv,
        Bool.not_true, ite_false, VotingRound.submitVote, VotingRound.isActive,
        hstat, Vote.make]
      simp [hkc.1, hkc.2, hset, Except.map]
    rw [List.map_cons, List.foldlM_cons, hstep, exceptBind_ok]
    have hnd2 : (List.map Prod.fst t).Nodup := (List.nodup_cons.mp (by simpa using hnd)).2
    have hknot : k ∉ t.map Prod.fst := (List.nodup_cons.mp (by simpa using hnd)).1
    have ihres := ih { s with currentVote := some { r with votes :=
        r.votes ++ [(k, ⟨k, ⟨vraw, s.scale⟩, now, false⟩)] } }
      { r with votes := r.votes ++ [(k, ⟨k, ⟨vraw, s.scale⟩, now, false⟩)] }
      rfl hstat
      (fun kq hq => hwf kq (List.mem_cons_of_mem _ hq))
      (fun kq hq => by
        simp only [assocHas_append]
        rw [hfresh kq (List.mem_cons_of_mem _ hq)]
        have hne : ¬ k = kq.1 := by
          intro he
          exact hknot (he ▸ List.mem_map_of_mem Prod.fst hq)
        simp [assocHas, hne])
      hnd2
    rw [ihres]
    simp [List.append_assoc]

/-- C1 (amended): on every well-formed session (the shape every reachable
session has: clean strings, factory-consistent scale, participant map
keyed by ids without duplicates, current round `voting`/`revealed` with
matching reveal flags), deserializing the store's serialization yields
the session back with identical id, name, scale, creatorId, active flag,
participants, and current round (question, status, vote keys, values and
reveal flags) — except that `roundHistory` comes back empty, and the
round's `startedAt` and every vote's `submittedAt` are replaced by the
deserialization time: the round trip is not the identity, and exactly
these fields are the ones it loses. -/
theorem C1_roundtrip_amended (s : Session) (now : Nat)
    (h1 : SessionId.make s.id = .ok s.id)
    (h2 : CleanString s.name) (h3 : CleanString s.creatorId)
    (h4 : WFScale s.scale)
    (h5 : (s.participants.map Prod.fst).Nodup)
    (h6 : ∀ kp ∈ s.participants, WFParticipantEntry kp)
    (h7 : ∀ r, s.currentVote = some r → WFRound s r) :
    deserializeSession (repoSerializeSession s) now =
      .ok { s with createdAt := now, voteHistory := [], currentVote := s.currentVote.map (fun r => { r with startedAt := now, votes := r.votes.map (fun kv => (kv.1, { kv.2 with timestamp := now })) }) } := by
  have hdparts : (repoSerializeSession s).participants =
      s.participants.map (fun kp =>
        (⟨kp.2.id, kp.2.name, kp.2.role, kp.2.connected⟩ : SerializedParticipant)) := by
    simp [repoSerializeSession, Session.getParticipants, List.map_map]
  have hmk : Session.make s.id s.name s.scale s.creatorId now =
      .ok ⟨s.id, s.name, s.scale, s.creatorId, true, [], none, [], now⟩ := by
    simp [Session.make, h2.1, h2.2, h3.1, h3.2]
  simp only [deserializeSession, hdparts]
  rw [show (repoSerializeSession s).id = s.id from rfl,
    show (repoSerializeSession s).scale =
      ⟨s.scale.getType, s.scale.name, s.scale.values⟩ from rfl,
    show (repoSerializeSession s).name = s.name from rfl,
    show (repoSerializeSession s).creatorId = s.creatorId from rfl,
    show (repoSerializeSession s).isActive = s.active from rfl,
    show (repoSerializeSession s).currentVote =
      s.currentVote.map serializeRound from rfl]
  rw [h1, exceptBind_ok, deserializeScale_roundtrip s.scale h4, exceptBind_ok,
    hmk, exceptBind_ok]
  have hifact : (if ¬ s.active = true then
        Session.deactivate ⟨s.id, s.name, s.scale, s.creatorId, true, [], none, [], now⟩
      else ⟨s.id, s.name, s.scale, s.creatorId, true, [], none, [], now⟩) =
      (⟨s.id, s.name, s.scale, s.creatorId, s.active, [], none, [], now⟩ : Session) := by
    cases hsa : s.active <;> simp [Session.deactivate]
  rw [hifact]
  have hfoldp : ((s.participants.map (fun kp =>
      (⟨kp.2.id, kp.2.name, kp.2.role, kp.2.connected⟩ : SerializedParticipant))).foldlM
        addSerializedParticipant
        (⟨s.id, s.name, s.scale, s.creatorId, s.active, [], none, [], now⟩ : Session)) =
      .ok ⟨s.id, s.name, s.scale, s.creatorId, s.active, s.participants, none, [], now⟩ := by
    have := foldlM_addSerializedParticipant s.participants
      ⟨s.id, s.name, s.scale, s.creatorId, s.active, [], none, [], now⟩
      h6 (fun kp _ => rfl) h5
    simpa using this
  rw [hfoldp, exceptBind_ok]
  cases hcv : s.currentVote with
  | none =>
    rfl
  | some r =>
    obtain ⟨hq, hndv, hwfv, hflags⟩ := h7 r hcv
    show ((Session.startVoting
        ⟨s.id, s.name, s.scale, s.creatorId, s.active, s.participants, none, [], now⟩
        (serializeRound r).question now) >>= (fun s3 =>
      (List.foldlM (addSerializedVote s.scale now) s3 (serializeRound r).votes) >>= (fun s4 =>
        match (serializeRound r).status with
        | VotingStatus.revealed => s4.revealVotes
        | VotingStatus.finished => s4.finishVoting
        | VotingStatus.voting => pure s4))) = _
    have hstart : Session.startVoting
        (⟨s.id, s.name, s.scale, s.creatorId, s.active, s.participants, none, [], now⟩ : Session)
        (serializeRound r).question now =
        .ok ⟨s.id, s.name, s.scale, s.creatorId, s.active, s.participants,
          some ⟨r.question, now, VotingStatus.voting, []⟩, [], now⟩ := by
      show Session.startVoting _ r.question now = _
      simp [Session.startVoting, Session.isVotingActive, VotingRound.make,
        hq.1, hq.2, Except.map]
    rw [hstart, exceptBind_ok]
    have hfoldv : (List.foldlM (addSerializedVote s.scale now)
        (⟨s.id, s.name, s.scale, s.creatorId, s.active, s.participants,
          some ⟨r.question, now, VotingStatus.voting, []⟩, [], now⟩ : Session)
        (serializeRound r).votes) =
        .ok ⟨s.id, s.name, s.scale, s.creatorId, s.active, s.participants,
          some ⟨r.question, now, VotingStatus.voting,
            r.votes.map (fun kv => (kv.1, ⟨kv.2.participantId, kv.2.value, now, false⟩))⟩,
          [], now⟩ := by
      have := foldlM_addSerializedVote now r.votes
        ⟨s.id, s.name, s.scale, s.creatorId, s.active, s.participants,
          some ⟨r.question, now, VotingStatus.voting, []⟩, [], now⟩
        ⟨r.question, now, VotingStatus.voting, []⟩
        rfl rfl hwfv (fun kv _ => rfl) hndv
      simpa using this
    rw [hfoldv, exceptBind_ok]
    rw [show (serializeRound r).status = r.status from rfl]
    rcases hflags with ⟨hst, hhid⟩ | ⟨hst, hrev⟩
    · rw [hst]
      show Except.ok (⟨s.id, s.name, s.scale, s.creatorId, s.active, s.participants,
        some ⟨r.question, now, VotingStatus.voting,
          r.votes.map (fun kv => (kv.1, ⟨kv.2.participantId, kv.2.value, now, false⟩))⟩,
        [], now⟩ : Session) = _
      congr 1
      simp only [Option.map_some', Session.mk.injEq, Option.some.injEq,
        VotingRound.mk.injEq, hst, true_and, and_true]
      apply List.map_congr_left
      intro kv hkv
      simp [hhid kv hkv]
    · rw [hst]
      have hrv : Session.revealVotes
          (⟨s.id, s.name, s.scale, s.creatorId, s.active, s.participants,
            some ⟨r.question, now, VotingStatus.voting,
              r.votes.map (fun kv => (kv.1, ⟨kv.2.participantId, kv.2.value, now, false⟩))⟩,
            [], now⟩ : Session) =
          .ok ⟨s.id, s.name, s.scale, s.creatorId, s.active, s.participants,
            some ⟨r.question, now, VotingStatus.revealed,
              r.votes.map (fun kv => (kv.1, ⟨kv.2.participantId, kv.2.value, now, true⟩))⟩,
            [], now⟩ := by
        simp [Session.revealVotes, VotingRound.reveal, VotingRound.isActive,
          Except.map, List.map_map, Vote.reveal]
      show Session.revealVotes _ = _
      rw [hrv]
      congr 1
      simp only [Option.map_some', Session.mk.injEq, Option.some.injEq,
        VotingRound.mk.injEq, hst, true_and, and_true]
      apply List.map_congr_left
      intro kv hkv
      simp [hrev kv hkv]

/-- C1 witness: the amended round-trip theorem applied to the concrete
session (all well-formedness hypotheses discharged by evaluation). -/
theorem C1_roundtrip_amended_witness :
    deserializeSession (repoSerializeSession sessionC1) 99 =
      .ok { sessionC1 with createdAt := 99, voteHistory := [], currentVote := sessionC1.currentVote.map (fun r => { r with startedAt := 99, votes := r.votes.map (fun kv => (kv.1, { kv.2 with timestamp := 99 })) }) } :=
  C1_roundtrip_amended sessionC1 99 (by decide) (by decide) (by decide)
    (by decide) (by decide) (by decide)
    (fun r hr => by
      rw [show sessionC1.currentVote = some (⟨"Q1", 3, VotingStatus.revealed,
        [("p1", ⟨"p1", ⟨"5", Scale.fibonacci⟩, 4, true⟩),
         ("p2", ⟨"p2", ⟨"8", Scale.fibonacci⟩, 5, true⟩)]⟩ : VotingRound) from rfl] at hr
      injection hr with h
      subst h
      decide)
